import Mathlib

set_option autoImplicit false

/-!
# Rotating quad demo: transform, vertex data and driver loop

A shallow embedding of `source/main.cpp` (the driver of the fragment-shader
demo) together with the `Transform2D` abstraction it calls.

Numbers: the program computes with `float`; the embedding is generic over a
field `α` (exact arithmetic), with the two trigonometric functions passed in
explicitly, so that every definition can be evaluated over `ℚ` and every
theorem can be stated over `ℝ` with `Real.cos` and `Real.sin`. The one place
where `main.cpp` itself changes precision, the narrowing of the `double`
timer reading to `float dt`, is the function `toFloat` that the driver takes
as a further argument; the theorems hold for every such conversion.
-/

/-! ## Vectors and 3×3 matrices (the parts of glm that the program uses) -/

/-- Two-component vector (`glm::vec2`). -/
@[ext]
structure Vec2 (α : Type) where
  x : α
  y : α
deriving DecidableEq

/-- Three-component vector (`glm::vec3`, GLSL `vec3`). -/
@[ext]
structure Vec3 (α : Type) where
  x : α
  y : α
  z : α
deriving DecidableEq

/-- Four-component vector (`glm::vec4`, GLSL `vec4`). -/
@[ext]
structure Vec4 (α : Type) where
  x : α
  y : α
  z : α
  w : α
deriving DecidableEq

/-- A 3×3 matrix (`glm::mat3`, GLSL `mat3`); `mij` is the entry in row `i`,
column `j`, the matrix acting on column vectors. -/
@[ext]
structure Mat3 (α : Type) where
  m00 : α
  m01 : α
  m02 : α
  m10 : α
  m11 : α
  m12 : α
  m20 : α
  m21 : α
  m22 : α
deriving DecidableEq

/-- Matrix product `a · b`. -/
def Mat3.mul {α : Type} [Field α] (a b : Mat3 α) : Mat3 α where
  m00 := a.m00 * b.m00 + a.m01 * b.m10 + a.m02 * b.m20
  m01 := a.m00 * b.m01 + a.m01 * b.m11 + a.m02 * b.m21
  m02 := a.m00 * b.m02 + a.m01 * b.m12 + a.m02 * b.m22
  m10 := a.m10 * b.m00 + a.m11 * b.m10 + a.m12 * b.m20
  m11 := a.m10 * b.m01 + a.m11 * b.m11 + a.m12 * b.m21
  m12 := a.m10 * b.m02 + a.m11 * b.m12 + a.m12 * b.m22
  m20 := a.m20 * b.m00 + a.m21 * b.m10 + a.m22 * b.m20
  m21 := a.m20 * b.m01 + a.m21 * b.m11 + a.m22 * b.m21
  m22 := a.m20 * b.m02 + a.m21 * b.m12 + a.m22 * b.m22

/-- Matrix times column vector, GLSL `worldMatrix * vec3(...)`. -/
def Mat3.mulVec {α : Type} [Field α] (a : Mat3 α) (v : Vec3 α) : Vec3 α where
  x := a.m00 * v.x + a.m01 * v.y + a.m02 * v.z
  y := a.m10 * v.x + a.m11 * v.y + a.m12 * v.z
  z := a.m20 * v.x + a.m21 * v.y + a.m22 * v.z

/-! ## Transform2D -/

/-- Modelled from the spec: the class `Transform2D` of `header/transform2d.h`,
which is not among the sources. Its state is a position, a rotation angle in
radians and a uniform scalar scale. -/
@[ext]
structure Transform2D (α : Type) where
  position : Vec2 α
  rotation : α
  scale : α
deriving DecidableEq

/-- Modelled from the spec: homogeneous translation matrix by `p`. -/
def Translation {α : Type} [Field α] (p : Vec2 α) : Mat3 α where
  m00 := 1
  m01 := 0
  m02 := p.x
  m10 := 0
  m11 := 1
  m12 := p.y
  m20 := 0
  m21 := 0
  m22 := 1

/-- Modelled from the spec: homogeneous rotation matrix by the angle `r`
(counter-clockwise for a positive angle; the spec does not fix the
direction, and no result below depends on it). -/
def Rotation {α : Type} [Field α] (cos sin : α → α) (r : α) : Mat3 α where
  m00 := cos r
  m01 := -sin r
  m02 := 0
  m10 := sin r
  m11 := cos r
  m12 := 0
  m20 := 0
  m21 := 0
  m22 := 1

/-- Modelled from the spec: homogeneous uniform scale matrix by the scalar `s`. -/
def Scale {α : Type} [Field α] (s : α) : Mat3 α where
  m00 := s
  m01 := 0
  m02 := 0
  m10 := 0
  m11 := s
  m12 := 0
  m20 := 0
  m21 := 0
  m22 := 1

namespace Transform2D

variable {α : Type} [Field α]

/-- Modelled from the spec: the default-constructed `Transform2D` that the
global `transform` of `main.cpp` starts from. The spec's end-to-end scenario
fixes the rotation at 0; position and scale are overwritten by `main` before
they are read. -/
def init : Transform2D α where
  position := ⟨0, 0⟩
  rotation := 0
  scale := 1

/-- Modelled from the spec: `SetPosition(vec2)`, an absolute setter of
`Transform2D` (source absent). -/
def SetPosition (t : Transform2D α) (p : Vec2 α) : Transform2D α :=
  { t with position := p }

/-- Modelled from the spec: `SetScale(scalar)`, an absolute setter without
validation (source absent). -/
def SetScale (t : Transform2D α) (s : α) : Transform2D α :=
  { t with scale := s }

/-- Modelled from the spec: `Rotate(deltaAngle)` accumulates the delta into
the current rotation (source absent). -/
def Rotate (t : Transform2D α) (deltaAngle : α) : Transform2D α :=
  { t with rotation := t.rotation + deltaAngle }

/-- Modelled from the spec: `GetMatrix()` returns
`Translation(position) · Rotation(rotation) · Scale(scale)` (source absent). -/
def GetMatrix (cos sin : α → α) (t : Transform2D α) : Mat3 α :=
  ((Translation t.position).mul (Rotation cos sin t.rotation)).mul (Scale t.scale)

/-- The composition with scale and rotation in swapped order,
`Translation(position) · Scale(scale) · Rotation(rotation)`; used only to
compare with `GetMatrix`. -/
def swappedMatrix (cos sin : α → α) (t : Transform2D α) : Mat3 α :=
  ((Translation t.position).mul (Scale t.scale)).mul (Rotation cos sin t.rotation)

/-- A sequence of `Rotate` calls, in order. -/
def rotateAll (t : Transform2D α) (deltas : List α) : Transform2D α :=
  deltas.foldl Rotate t

end Transform2D

/-! ## Vertex data and the shape -/

/-- Modelled from the spec: the vertex record `Vertex2dColor` of
`header/shape.h` (not among the sources): a 2-component position and a
4-component colour. -/
@[ext]
structure Vertex2dColor (α : Type) where
  position : Vec2 α
  color : Vec4 α
deriving DecidableEq

/-- Modelled from the spec: the class `Shape` of `header/shape.h` (not among
the sources), holding the vertex and index sequences it was constructed
from. -/
structure Shape (α : Type) where
  vertices : List (Vertex2dColor α)
  indices : List Nat
deriving DecidableEq

/-- The vector operation `std::vector::push_back`. -/
def push_back {β : Type} (v : List β) (x : β) : List β := v ++ [x]

/-- The GLSL vertex stage `vertexShaderCode` of `main.cpp`:
`transformed = worldMatrix * vec3(in_position, 1)` and
`gl_Position = vec4(transformed, 1)`. -/
def vertexShaderCode {α : Type} [Field α] (worldMatrix : Mat3 α) (in_position : Vec2 α) :
    Vec4 α :=
  let transformed := worldMatrix.mulVec ⟨in_position.x, in_position.y, 1⟩
  ⟨transformed.x, transformed.y, transformed.z, 1⟩

/-- Twice the signed area of the triangle `a b c` is the cross product of
`b - a` and `c - a`; the signed area is positive for a counter-clockwise
triangle and negative for a clockwise one. -/
def signedArea {α : Type} [Field α] (a b c : Vec2 α) : α :=
  ((b.x - a.x) * (c.y - a.y) - (c.x - a.x) * (b.y - a.y)) / 2

/-- Modelled from the spec: the draw topology of `Shape::Draw` (source
absent), a triangle list: consecutive groups of three indices (a trailing
group of fewer than three is dropped). -/
def triangles : List Nat → List (Nat × Nat × Nat)
  | i :: j :: k :: rest => (i, j, k) :: triangles rest
  | _ => []

/-- The corner positions of the triangle with the given index triple, when
all three indices are positions of the vertex list. -/
def corners {α : Type} (vs : List (Vertex2dColor α)) (t : Nat × Nat × Nat) :
    Option (Vec2 α × Vec2 α × Vec2 α) :=
  match vs.get? t.1, vs.get? t.2.1, vs.get? t.2.2 with
  | some a, some b, some c => some (a.position, b.position, c.position)
  | _, _, _ => none

/-! ## The driver `main` -/

namespace Driver

/-- The two stage kinds passed to `InitFromFile`: `GL_VERTEX_SHADER` and
`GL_FRAGMENT_SHADER`. -/
inductive Stage where
  | GL_VERTEX_SHADER
  | GL_FRAGMENT_SHADER
deriving DecidableEq

/-- The calls that `main` makes into GLFW, GLEW, OpenGL and the three
classes, with the argument values and, where `main` uses or the outside world
decides it, the result. -/
inductive Call (α : Type) where
  | glfwInit
  | glfwCreateWindow (width height : Nat)
  | glfwMakeContextCurrent
  | glfwSetFramebufferSizeCallback
  | glewInit
  | newShape (vertices : List (Vertex2dColor α)) (indices : List Nat)
  | SetScale (s : α)
  | SetPosition (p : Vec2 α)
  | InitFromFile (stage : Stage) (ok : Bool)
  | glCreateProgram (result : Nat)
  | AttachTo (stage : Stage) (program : Nat)
  | glLinkProgram (program : Nat) (ok : Bool)
  | glGetUniformLocation (program : Nat) (result : Int)
  | glfwGetTime (result : α)
  | glfwSetTime (time : α)
  | glClear
  | glClearColor
  | Rotate (dt : α)
  | glUseProgram (program : Nat)
  | Draw (matrix : Mat3 α) (uniformLocation : Nat)
  | glfwSwapBuffers
  | glfwPollEvents
  | glDeleteProgram (program : Nat)
  | deleteSquare
  | glfwTerminate
deriving DecidableEq

/-- Is the call a `Transform2D::Rotate`? -/
def Call.isRotate {α : Type} : Call α → Bool
  | .Rotate _ => true
  | _ => false

/-- Is the call a `Shape::Draw`? -/
def Call.isDraw {α : Type} : Call α → Bool
  | .Draw _ _ => true
  | _ => false

/-- Is the call a `glfwSetTime` (a timer reset)? -/
def Call.isSetTime {α : Type} : Call α → Bool
  | .glfwSetTime _ => true
  | _ => false

/-- The arguments of the `Rotate` calls of a trace, in order. -/
def rotateArgs {α : Type} : List (Call α) → List α
  | [] => []
  | .Rotate dt :: rest => dt :: rotateArgs rest
  | _ :: rest => rotateArgs rest

/-- What the outside world decides during startup. -/
structure Env (α : Type) where
  /-- wall-clock time at which `glfwInit` starts the GLFW timer at 0 -/
  tInit : α
  /-- whether `vertexShader.InitFromFile` succeeded when it returns to `main`,
  which discards the result (line 172) -/
  vertexInit : Bool
  /-- whether `fragmentShader.InitFromFile` succeeded when it returns to
  `main`, which discards the result (line 175) -/
  fragmentInit : Bool
  /-- the handle returned by `glCreateProgram` (0 when creation fails) -/
  program : Nat
  /-- whether `glLinkProgram` succeeds; `main` does not query the link status -/
  linkOk : Bool
  /-- the `GLint` returned by `glGetUniformLocation` (-1 when the name is not
  an active uniform of the program) -/
  uniform : Int
deriving DecidableEq

/-- What the outside world decides during one iteration of the main loop:
the wall-clock times at which `glfwGetTime()` and `glfwSetTime(0)` run. -/
structure Frame (α : Type) where
  tGet : α
  tSet : α
deriving DecidableEq

/-- Conversion of a `GLint` to the `GLuint` global `uniformLocation`. -/
def toGLuint (i : Int) : Nat := (i % 4294967296).toNat

/-- The globals of `main.cpp`, the GLFW timer and the trace of calls made so
far. The GLFW timer is kept as the wall-clock time at which it read 0. -/
structure State (α : Type) where
  square : Option (Shape α)
  transform : Transform2D α
  shaderProgram : Nat
  uniformLocation : Nat
  timerOrigin : α
  trace : List (Call α)
deriving DecidableEq

variable {α : Type} [Field α]

/-- The vertex list built by `main` (lines 85-110). -/
def vertices : List (Vertex2dColor α) :=
  let vertices : List (Vertex2dColor α) := []
  let vertices := push_back vertices ⟨⟨-1, 1⟩, ⟨1, 0, 0, 1⟩⟩
  let vertices := push_back vertices ⟨⟨1, 1⟩, ⟨0, 0, 1, 1⟩⟩
  let vertices := push_back vertices ⟨⟨-1, -1⟩, ⟨0, 0, 1, 1⟩⟩
  let vertices := push_back vertices ⟨⟨1, -1⟩, ⟨1, 0, 0, 1⟩⟩
  vertices

/-- The index list built by `main` (lines 113-119). -/
def indices : List Nat :=
  let indices : List Nat := []
  let indices := push_back indices 0
  let indices := push_back indices 1
  let indices := push_back indices 2
  let indices := push_back indices 3
  let indices := push_back indices 2
  let indices := push_back indices 1
  indices

/-- The transform after `transform.SetScale(.25f)` and
`transform.SetPosition(glm::vec2(.25, .25))` (lines 126-127). -/
def startTransform : Transform2D α :=
  (Transform2D.init.SetScale 0.25).SetPosition ⟨0.25, 0.25⟩

/-- The calls of `main` before the main loop (lines 63-194), none of whose
results is tested. -/
def startupCalls (env : Env α) : List (Call α) :=
  [ .glfwInit,
    .glfwCreateWindow 800 600,
    .glfwMakeContextCurrent,
    .glfwSetFramebufferSizeCallback,
    .glewInit,
    .newShape vertices indices,
    .SetScale 0.25,
    .SetPosition ⟨0.25, 0.25⟩,
    .InitFromFile .GL_VERTEX_SHADER env.vertexInit,
    .InitFromFile .GL_FRAGMENT_SHADER env.fragmentInit,
    .glCreateProgram env.program,
    .AttachTo .GL_VERTEX_SHADER env.program,
    .AttachTo .GL_FRAGMENT_SHADER env.program,
    .glLinkProgram env.program env.linkOk,
    .glGetUniformLocation env.program env.uniform ]

/-- The state in which `main` reaches the `while` of line 199. -/
def startup (env : Env α) : State α where
  square := some ⟨vertices, indices⟩
  transform := startTransform
  shaderProgram := env.program
  uniformLocation := toGLuint env.uniform
  timerOrigin := env.tInit
  trace := startupCalls env

/-- The calls of one iteration of the main loop (lines 202-232), started in
state `s`. `glfwGetTime()` returns the timer reading as a `double`, and
`float dt = glfwGetTime();` (line 202) narrows it to `float`: `toFloat` is that
conversion, and `dt` is what `Rotate` receives (line 212). -/
def frameCalls (cos sin toFloat : α → α) (s : State α) (f : Frame α) : List (Call α) :=
  let dt := toFloat (f.tGet - s.timerOrigin)
  [ .glfwGetTime (f.tGet - s.timerOrigin),
    .glfwSetTime 0,
    .glClear,
    .glClearColor,
    .Rotate dt,
    .glUseProgram s.shaderProgram,
    .Draw ((s.transform.Rotate dt).GetMatrix cos sin) s.uniformLocation,
    .glUseProgram 0,
    .glfwSwapBuffers,
    .glfwPollEvents ]

/-- One iteration of the main loop (lines 202-232): the transform is rotated
by `dt`, the timer reading narrowed to `float`, and the timer is reset. -/
def frame (cos sin toFloat : α → α) (s : State α) (f : Frame α) : State α :=
  let dt := toFloat (f.tGet - s.timerOrigin)
  { s with
    transform := s.transform.Rotate dt
    timerOrigin := f.tSet - 0
    trace := s.trace ++ frameCalls cos sin toFloat s f }

/-- The main loop (line 199): one iteration for each time that
`glfwWindowShouldClose` answers false. -/
def mainLoop (cos sin toFloat : α → α) (s : State α) (frames : List (Frame α)) : State α :=
  frames.foldl (frame cos sin toFloat) s

/-- The calls after the main loop (lines 237-244). -/
def shutdown (s : State α) : State α :=
  { s with
    square := none
    trace := s.trace ++ [.glDeleteProgram s.shaderProgram, .deleteSquare, .glfwTerminate] }

/-- The function `main`: the final state and the exit code. -/
def main (cos sin toFloat : α → α) (env : Env α) (frames : List (Frame α)) : State α × Int :=
  (shutdown (mainLoop cos sin toFloat (startup env) frames), 0)

/-! ### The part of the OpenGL state that `glUseProgram` acts on -/

/-- The current program (0 when none) and the programs whose last link
succeeded. -/
structure GLState where
  current : Nat
  linked : List Nat
deriving DecidableEq

/-- Effect of a call on the current program. `glUseProgram(0)` unbinds;
`glUseProgram(p)` installs `p` when `p` was linked successfully and is
otherwise an error that leaves the state as it was. -/
def GLState.step (g : GLState) : Call α → GLState
  | .glLinkProgram p ok =>
      if ok then { g with linked := p :: g.linked } else { g with linked := g.linked.erase p }
  | .glUseProgram p =>
      if p = 0 ∨ p ∈ g.linked then { g with current := p } else g
  | _ => g

/-- The OpenGL state after a trace of calls, starting with no program bound. -/
def glAfter (trace : List (Call α)) : GLState :=
  trace.foldl GLState.step ⟨0, []⟩

/-- The programs that are current at the moments of the `Draw` calls of a
trace, in order, when the trace is replayed from the OpenGL state `g`. -/
def boundAtDraws (g : GLState) : List (Call α) → List Nat
  | [] => []
  | c :: rest => (if c.isDraw then [g.current] else []) ++ boundAtDraws (g.step c) rest

/-- The calls of the main loop started in state `s`, one block of
`frameCalls` for each iteration. -/
def loopCalls (cos sin toFloat : α → α) (s : State α) : List (Frame α) → List (Call α)
  | [] => []
  | f :: fs => frameCalls cos sin toFloat s f ++ loopCalls cos sin toFloat (frame cos sin toFloat s f) fs

/-- The state at the top of iteration `k` (counted from 0) of the main loop:
the state after startup and the first `k` iterations. -/
def stateBefore (cos sin toFloat : α → α) (env : Env α) (frames : List (Frame α)) (k : Nat) : State α :=
  mainLoop cos sin toFloat (startup env) (frames.take k)

/-- The wall-clock time of the timer reset (`glfwSetTime(0)`) of the
iteration before iteration `k`, when there is one. -/
def previousReset (frames : List (Frame α)) (k : Nat) : Option α :=
  match k with
  | 0 => none
  | j + 1 => (frames.get? j).map Frame.tSet

/-- The frame deltas `dt` of a run of the main loop whose timer read 0 at
wall-clock time `origin`: in each iteration the time elapsed from the latest
timer start (`glfwInit` for the first iteration, the previous iteration's
`glfwSetTime(0)` for the others) to that iteration's `glfwGetTime()`,
narrowed to `float`. -/
def frameDeltas (toFloat : α → α) (origin : α) : List (Frame α) → List α
  | [] => []
  | f :: fs => toFloat (f.tGet - origin) :: frameDeltas toFloat f.tSet fs

/-- The startup outcomes that the spec calls failures: a shader that fails to
initialise, a failed link, or the invalid uniform location -1. -/
def startupFailed (env : Env α) : Bool :=
  !env.vertexInit || !env.fragmentInit || !env.linkOk || env.uniform == -1

end Driver

/-! ## Helper lemmas -/

section Lemmas

variable {α : Type} [Field α]

theorem Transform2D.rotateAll_rotation (t : Transform2D α) (ds : List α) :
    (t.rotateAll ds).rotation = t.rotation + ds.sum := by
  induction ds generalizing t with
  | nil => simp [Transform2D.rotateAll]
  | cons d ds ih =>
    have h := ih (t.Rotate d)
    simp only [Transform2D.rotateAll, List.foldl_cons, List.sum_cons] at h ⊢
    rw [h]
    simp [Transform2D.Rotate, add_assoc]

theorem Transform2D.rotateAll_position (t : Transform2D α) (ds : List α) :
    (t.rotateAll ds).position = t.position := by
  induction ds generalizing t with
  | nil => rfl
  | cons d ds ih =>
    have h := ih (t.Rotate d)
    simp only [Transform2D.rotateAll, List.foldl_cons] at h ⊢
    rw [h]
    rfl

theorem Transform2D.rotateAll_scale (t : Transform2D α) (ds : List α) :
    (t.rotateAll ds).scale = t.scale := by
  induction ds generalizing t with
  | nil => rfl
  | cons d ds ih =>
    have h := ih (t.Rotate d)
    simp only [Transform2D.rotateAll, List.foldl_cons] at h ⊢
    rw [h]
    rfl

theorem Transform2D.rotateAll_eq (t : Transform2D α) (ds : List α) :
    t.rotateAll ds = t.Rotate ds.sum := by
  apply Transform2D.ext
  · rw [Transform2D.rotateAll_position]; rfl
  · rw [Transform2D.rotateAll_rotation]; rfl
  · rw [Transform2D.rotateAll_scale]; rfl

namespace Driver

omit [Field α] in
theorem rotateArgs_append (a b : List (Call α)) :
    rotateArgs (a ++ b) = rotateArgs a ++ rotateArgs b := by
  induction a with
  | nil => rfl
  | cons c a ih => cases c <;> simp [rotateArgs, ih]

theorem rotateArgs_startupCalls (env : Env α) : rotateArgs (startupCalls env) = [] := rfl

theorem rotateArgs_frameCalls (cos sin toFloat : α → α) (s : State α) (f : Frame α) :
    rotateArgs (frameCalls cos sin toFloat s f) = [toFloat (f.tGet - s.timerOrigin)] := rfl

theorem mainLoop_cons (cos sin toFloat : α → α) (s : State α) (f : Frame α) (fs : List (Frame α)) :
    mainLoop cos sin toFloat s (f :: fs) = mainLoop cos sin toFloat (frame cos sin toFloat s f) fs := rfl

theorem mainLoop_append (cos sin toFloat : α → α) (s : State α) (a b : List (Frame α)) :
    mainLoop cos sin toFloat s (a ++ b) = mainLoop cos sin toFloat (mainLoop cos sin toFloat s a) b := by
  simp [mainLoop, List.foldl_append]

theorem mainLoop_trace (cos sin toFloat : α → α) (s : State α) (frames : List (Frame α)) :
    (mainLoop cos sin toFloat s frames).trace = s.trace ++ loopCalls cos sin toFloat s frames := by
  induction frames generalizing s with
  | nil => simp [mainLoop, loopCalls]
  | cons f fs ih =>
    rw [mainLoop_cons, ih]
    simp [loopCalls, frame, List.append_assoc]

theorem mainLoop_shaderProgram (cos sin toFloat : α → α) (s : State α) (frames : List (Frame α)) :
    (mainLoop cos sin toFloat s frames).shaderProgram = s.shaderProgram := by
  induction frames generalizing s with
  | nil => rfl
  | cons f fs ih => rw [mainLoop_cons, ih]; rfl

theorem mainLoop_uniformLocation (cos sin toFloat : α → α) (s : State α) (frames : List (Frame α)) :
    (mainLoop cos sin toFloat s frames).uniformLocation = s.uniformLocation := by
  induction frames generalizing s with
  | nil => rfl
  | cons f fs ih => rw [mainLoop_cons, ih]; rfl

theorem mainLoop_transform (cos sin toFloat : α → α) (s : State α) (frames : List (Frame α)) :
    (mainLoop cos sin toFloat s frames).transform
      = s.transform.rotateAll (rotateArgs (loopCalls cos sin toFloat s frames)) := by
  induction frames generalizing s with
  | nil => rfl
  | cons f fs ih =>
    rw [mainLoop_cons, ih]
    simp [loopCalls, rotateArgs_append, rotateArgs_frameCalls, Transform2D.rotateAll, frame]

theorem loopCalls_append (cos sin toFloat : α → α) (s : State α) (a b : List (Frame α)) :
    loopCalls cos sin toFloat s (a ++ b)
      = loopCalls cos sin toFloat s a ++ loopCalls cos sin toFloat (mainLoop cos sin toFloat s a) b := by
  induction a generalizing s with
  | nil => simp [loopCalls, mainLoop]
  | cons f fs ih => simp [loopCalls, ih, mainLoop_cons, List.append_assoc]

theorem countP_isRotate_loopCalls (cos sin toFloat : α → α) (s : State α) (frames : List (Frame α)) :
    (loopCalls cos sin toFloat s frames).countP Call.isRotate = frames.length := by
  induction frames generalizing s with
  | nil => rfl
  | cons f fs ih =>
    simp [loopCalls, List.countP_append, ih, frameCalls, List.countP_cons, Call.isRotate]

theorem countP_isDraw_loopCalls (cos sin toFloat : α → α) (s : State α) (frames : List (Frame α)) :
    (loopCalls cos sin toFloat s frames).countP Call.isDraw = frames.length := by
  induction frames generalizing s with
  | nil => rfl
  | cons f fs ih =>
    simp [loopCalls, List.countP_append, ih, frameCalls, List.countP_cons, Call.isDraw]

omit [Field α] in
theorem boundAtDraws_append (g : GLState) (a b : List (Call α)) :
    boundAtDraws g (a ++ b) = boundAtDraws g a ++ boundAtDraws (a.foldl GLState.step g) b := by
  induction a generalizing g with
  | nil => rfl
  | cons c a ih => simp [boundAtDraws, ih, List.append_assoc]

theorem boundAtDraws_frameCalls (cos sin toFloat : α → α) (g : GLState) (hcur : g.current = 0)
    (s : State α) (hl : s.shaderProgram ∈ g.linked) (f : Frame α) :
    boundAtDraws g (frameCalls cos sin toFloat s f) = [s.shaderProgram] ∧
    (frameCalls cos sin toFloat s f).foldl GLState.step g = g := by
  cases g with
  | mk current linked =>
    simp only at hcur hl
    subst hcur
    simp [frameCalls, boundAtDraws, GLState.step, Call.isDraw, hl]

theorem boundAtDraws_loopCalls (cos sin toFloat : α → α) (g : GLState) (hcur : g.current = 0)
    (p : Nat) (hl : p ∈ g.linked) (s : State α) (hs : s.shaderProgram = p)
    (frames : List (Frame α)) :
    boundAtDraws g (loopCalls cos sin toFloat s frames) = List.replicate frames.length p ∧
    (loopCalls cos sin toFloat s frames).foldl GLState.step g = g := by
  induction frames generalizing s with
  | nil => exact ⟨rfl, rfl⟩
  | cons f fs ih =>
    have hf := boundAtDraws_frameCalls cos sin toFloat g hcur s (hs ▸ hl) f
    have hrest := ih (frame cos sin toFloat s f) (by simpa [frame] using hs)
    simp only [loopCalls, boundAtDraws_append, List.foldl_append, hf.1, hf.2, hrest.1, hrest.2,
      hs, List.length_cons, List.replicate_succ]
    exact ⟨rfl, trivial⟩

theorem stateBefore_succ (cos sin toFloat : α → α) (env : Env α) (frames : List (Frame α)) (k : Nat)
    (hk : k < frames.length) :
    stateBefore cos sin toFloat env frames (k + 1)
      = frame cos sin toFloat (stateBefore cos sin toFloat env frames k) (frames.get ⟨k, hk⟩) := by
  unfold stateBefore
  rw [List.take_succ, mainLoop_append]
  simp [List.getElem?_eq_getElem hk, mainLoop]

theorem stateBefore_timerOrigin (cos sin toFloat : α → α) (env : Env α) (frames : List (Frame α))
    (k : Nat) (hk : k ≤ frames.length) :
    (stateBefore cos sin toFloat env frames k).timerOrigin
      = (previousReset frames k).getD env.tInit := by
  cases k with
  | zero => rfl
  | succ j =>
    have hj : j < frames.length := hk
    rw [stateBefore_succ cos sin toFloat env frames j hj]
    simp [frame, previousReset, List.getElem?_eq_getElem hj]

theorem rotateArgs_loopCalls (cos sin toFloat : α → α) (s : State α)
    (frames : List (Frame α)) :
    rotateArgs (loopCalls cos sin toFloat s frames)
      = frameDeltas toFloat s.timerOrigin frames := by
  induction frames generalizing s with
  | nil => rfl
  | cons f fs ih =>
    simp [loopCalls, rotateArgs_append, rotateArgs_frameCalls, ih, frameDeltas, frame]

theorem main_trace (cos sin toFloat : α → α) (env : Env α) (frames : List (Frame α)) :
    (main cos sin toFloat env frames).1.trace
      = startupCalls env
        ++ loopCalls cos sin toFloat (startup env) frames
        ++ [.glDeleteProgram env.program, .deleteSquare, .glfwTerminate] := by
  simp [main, shutdown, mainLoop_trace, mainLoop_shaderProgram, startup]

theorem rotateArgs_main (cos sin toFloat : α → α) (env : Env α) (frames : List (Frame α)) :
    rotateArgs (main cos sin toFloat env frames).1.trace
      = frameDeltas toFloat env.tInit frames := by
  rw [main_trace]
  simp [rotateArgs_append, rotateArgs_startupCalls, rotateArgs_loopCalls, rotateArgs, startup]

theorem main_transform (cos sin toFloat : α → α) (env : Env α) (frames : List (Frame α)) :
    (main cos sin toFloat env frames).1.transform
      = (startTransform : Transform2D α).rotateAll (frameDeltas toFloat env.tInit frames) := by
  have h : (main cos sin toFloat env frames).1.transform
      = (mainLoop cos sin toFloat (startup env) frames).transform := rfl
  rw [h, mainLoop_transform, rotateArgs_loopCalls]
  rfl

end Driver

end Lemmas

/-! ## The claims -/

/-- C1: with the transform set as `main` does (`SetScale(0.25)`,
`SetPosition((0.25, 0.25))`, rotation 0), the matrix returned by `GetMatrix`
maps the column vector `[-1, 1, 1]` of the quad's first vertex `(-1, 1)` to
`(0, 0.5)` with homogeneous coordinate 1; the vertex stage therefore outputs
`gl_Position = (0, 0.5, 1, 1)` for that vertex. -/
theorem C1_first_vertex_maps_to_0_half :
    (Driver.startTransform : Transform2D ℝ).rotation = 0 ∧
    (Driver.vertices : List (Vertex2dColor ℝ)).head? = some ⟨⟨-1, 1⟩, ⟨1, 0, 0, 1⟩⟩ ∧
    ((Driver.startTransform : Transform2D ℝ).GetMatrix Real.cos Real.sin).mulVec ⟨-1, 1, 1⟩
      = ⟨0, 0.5, 1⟩ ∧
    vertexShaderCode ((Driver.startTransform : Transform2D ℝ).GetMatrix Real.cos Real.sin)
      ⟨-1, 1⟩ = ⟨0, 0.5, 1, 1⟩ := by
  refine ⟨rfl, rfl, ?_, ?_⟩
  · simp [Driver.startTransform, Transform2D.GetMatrix, Transform2D.SetScale,
      Transform2D.SetPosition, Transform2D.init, Translation, Rotation, Scale, Mat3.mul,
      Mat3.mulVec]
    norm_num
  · simp [vertexShaderCode, Driver.startTransform, Transform2D.GetMatrix,
      Transform2D.SetScale, Transform2D.SetPosition, Transform2D.init, Translation, Rotation,
      Scale, Mat3.mul, Mat3.mulVec]
    norm_num

/-- C3: for every position `P`, rotation angle `R` and scale `S` (zero and
negative `S` included), the matrix returned by `GetMatrix`, which is
`Translation(P) · Rotation(R) · Scale(S)`, maps the origin point `[0, 0, 1]`
exactly to `[P.x, P.y, 1]`. -/
theorem C3_origin_maps_to_position (P : Vec2 ℝ) (R S : ℝ) :
    Transform2D.GetMatrix Real.cos Real.sin ⟨P, R, S⟩
      = ((Translation P).mul (Rotation Real.cos Real.sin R)).mul (Scale S) ∧
    (Transform2D.GetMatrix Real.cos Real.sin ⟨P, R, S⟩).mulVec ⟨0, 0, 1⟩ = ⟨P.x, P.y, 1⟩ := by
  refine ⟨rfl, ?_⟩
  simp [Transform2D.GetMatrix, Translation, Rotation, Scale, Mat3.mul, Mat3.mulVec]

/-- C4 as stated fails: at position `(0, 0)`, scale `2 ≠ 1` and rotation
`1 ≠ 0` the matrix `Translation · Rotation · Scale` of `GetMatrix` equals the
matrix with scale and rotation swapped, `Translation · Scale · Rotation`. -/
theorem C4_swapped_order_counterexample :
    (2 : ℝ) ≠ 1 ∧ (1 : ℝ) ≠ 0 ∧
    Transform2D.GetMatrix Real.cos Real.sin ⟨⟨0, 0⟩, 1, 2⟩
      = Transform2D.swappedMatrix Real.cos Real.sin ⟨⟨0, 0⟩, 1, 2⟩ := by
  refine ⟨by norm_num, by norm_num, ?_⟩
  simp [Transform2D.GetMatrix, Transform2D.swappedMatrix, Translation, Rotation, Scale,
    Mat3.mul, mul_comm]

/-- C4, amended: the scale of `Transform2D` is one scalar for both axes, so
the scale matrix commutes with the rotation matrix: for every position `P`,
scale `S` and rotation angle `R`, `Translation(P) · Rotation(R) · Scale(S)`
equals `Translation(P) · Scale(S) · Rotation(R)`. -/
theorem C4_scale_rotation_commute (P : Vec2 ℝ) (R S : ℝ) :
    Transform2D.GetMatrix Real.cos Real.sin ⟨P, R, S⟩
      = Transform2D.swappedMatrix Real.cos Real.sin ⟨P, R, S⟩ := by
  simp [Transform2D.GetMatrix, Transform2D.swappedMatrix, Translation, Rotation, Scale,
    Mat3.mul, mul_comm]

/-- C6: the index list that `main` builds is exactly `[0, 1, 2, 3, 2, 1]`
(6 entries, two triangles), the vertex list has exactly 4 entries, every
index is a position of the vertex list, and these two lists are the ones the
shape is constructed from. -/
theorem C6_indices_within_vertices (env : Driver.Env ℝ) :
    Driver.indices = [0, 1, 2, 3, 2, 1] ∧
    Driver.indices.length = 6 ∧
    (triangles Driver.indices).length = 2 ∧
    (Driver.vertices : List (Vertex2dColor ℝ)).length = 4 ∧
    (∀ i ∈ Driver.indices, i < (Driver.vertices : List (Vertex2dColor ℝ)).length) ∧
    (Driver.startup env).square = some ⟨Driver.vertices, Driver.indices⟩ ∧
    Driver.Call.newShape Driver.vertices Driver.indices ∈ (Driver.startup env).trace := by
  refine ⟨rfl, rfl, rfl, rfl, ?_, rfl, ?_⟩
  · intro i hi
    simp [Driver.indices, push_back] at hi
    simp [Driver.vertices, push_back]
    omega
  · simp [Driver.startup, Driver.startupCalls]

/-- C9: for every accumulated rotation angle `θ`, with the scale 0.25 and
the position (0.25, 0.25) that `main` sets, `GetMatrix` maps each of the four
quad vertices to a point whose x and y coordinates lie strictly between -1
and 1. -/
theorem C9_quad_stays_in_clip_square (θ : ℝ) :
    ∀ v ∈ (Driver.vertices : List (Vertex2dColor ℝ)),
      (-1 : ℝ) < (vertexShaderCode
        (((Driver.startTransform : Transform2D ℝ).Rotate θ).GetMatrix Real.cos Real.sin)
        v.position).x ∧
      (vertexShaderCode
        (((Driver.startTransform : Transform2D ℝ).Rotate θ).GetMatrix Real.cos Real.sin)
        v.position).x < 1 ∧
      (-1 : ℝ) < (vertexShaderCode
        (((Driver.startTransform : Transform2D ℝ).Rotate θ).GetMatrix Real.cos Real.sin)
        v.position).y ∧
      (vertexShaderCode
        (((Driver.startTransform : Transform2D ℝ).Rotate θ).GetMatrix Real.cos Real.sin)
        v.position).y < 1 := by
  have hc1 := Real.cos_le_one θ
  have hc2 := Real.neg_one_le_cos θ
  have hs1 := Real.sin_le_one θ
  have hs2 := Real.neg_one_le_sin θ
  intro v hv
  simp [Driver.vertices, push_back] at hv
  rcases hv with rfl | rfl | rfl | rfl <;>
    simp [vertexShaderCode, Driver.startTransform, Transform2D.GetMatrix,
      Transform2D.SetScale, Transform2D.SetPosition, Transform2D.init, Transform2D.Rotate,
      Translation, Rotation, Scale, Mat3.mul, Mat3.mulVec] <;>
    norm_num <;>
    refine ⟨?_, ?_, ?_, ?_⟩ <;> linarith

/-- Witness of C9 at the angle 0 and the quad's first vertex. -/
theorem C9_quad_stays_in_clip_square_witness :
    (⟨⟨-1, 1⟩, ⟨1, 0, 0, 1⟩⟩ : Vertex2dColor ℝ) ∈ (Driver.vertices : List (Vertex2dColor ℝ)) ∧
    ((-1 : ℝ) < (vertexShaderCode
        (((Driver.startTransform : Transform2D ℝ).Rotate 0).GetMatrix Real.cos Real.sin)
        (⟨⟨-1, 1⟩, ⟨1, 0, 0, 1⟩⟩ : Vertex2dColor ℝ).position).x ∧
      (vertexShaderCode
        (((Driver.startTransform : Transform2D ℝ).Rotate 0).GetMatrix Real.cos Real.sin)
        (⟨⟨-1, 1⟩, ⟨1, 0, 0, 1⟩⟩ : Vertex2dColor ℝ).position).x < 1 ∧
      (-1 : ℝ) < (vertexShaderCode
        (((Driver.startTransform : Transform2D ℝ).Rotate 0).GetMatrix Real.cos Real.sin)
        (⟨⟨-1, 1⟩, ⟨1, 0, 0, 1⟩⟩ : Vertex2dColor ℝ).position).y ∧
      (vertexShaderCode
        (((Driver.startTransform : Transform2D ℝ).Rotate 0).GetMatrix Real.cos Real.sin)
        (⟨⟨-1, 1⟩, ⟨1, 0, 0, 1⟩⟩ : Vertex2dColor ℝ).position).y < 1) :=
  ⟨by simp [Driver.vertices, push_back],
   C9_quad_stays_in_clip_square 0 _ (by simp [Driver.vertices, push_back])⟩

/-- C10: the two triangles that the index list `[0,1,2,3,2,1]` selects from
the vertex list are `(v0,v1,v2) = ((-1,1),(1,1),(-1,-1))` and
`(v3,v2,v1) = ((1,-1),(-1,-1),(1,1))`; their signed areas are equal, both -2
(clockwise), they share the edge `v1`-`v2`, and their absolute areas sum to 4,
the area of the square `[-1,1] x [-1,1]`. -/
theorem C10_two_triangles_same_winding :
    triangles Driver.indices = [(0, 1, 2), (3, 2, 1)] ∧
    corners (Driver.vertices : List (Vertex2dColor ℝ)) (0, 1, 2)
      = some (⟨-1, 1⟩, ⟨1, 1⟩, ⟨-1, -1⟩) ∧
    corners (Driver.vertices : List (Vertex2dColor ℝ)) (3, 2, 1)
      = some (⟨1, -1⟩, ⟨-1, -1⟩, ⟨1, 1⟩) ∧
    signedArea (⟨-1, 1⟩ : Vec2 ℝ) ⟨1, 1⟩ ⟨-1, -1⟩ = -2 ∧
    signedArea (⟨1, -1⟩ : Vec2 ℝ) ⟨-1, -1⟩ ⟨1, 1⟩ = -2 ∧
    signedArea (⟨-1, 1⟩ : Vec2 ℝ) ⟨1, 1⟩ ⟨-1, -1⟩
      = signedArea (⟨1, -1⟩ : Vec2 ℝ) ⟨-1, -1⟩ ⟨1, 1⟩ ∧
    |signedArea (⟨-1, 1⟩ : Vec2 ℝ) ⟨1, 1⟩ ⟨-1, -1⟩|
      + |signedArea (⟨1, -1⟩ : Vec2 ℝ) ⟨-1, -1⟩ ⟨1, 1⟩| = (1 - (-1)) * (1 - (-1)) ∧
    |signedArea (⟨-1, 1⟩ : Vec2 ℝ) ⟨1, 1⟩ ⟨-1, -1⟩|
      + |signedArea (⟨1, -1⟩ : Vec2 ℝ) ⟨-1, -1⟩ ⟨1, 1⟩| = 4 := by
  have h1 : signedArea (⟨-1, 1⟩ : Vec2 ℝ) ⟨1, 1⟩ ⟨-1, -1⟩ = -2 := by
    simp [signedArea]; norm_num
  have h2 : signedArea (⟨1, -1⟩ : Vec2 ℝ) ⟨-1, -1⟩ ⟨1, 1⟩ = -2 := by
    simp [signedArea]; norm_num
  refine ⟨rfl, rfl, rfl, h1, h2, by rw [h1, h2], ?_, ?_⟩ <;> rw [h1, h2] <;> norm_num

/-- C2: for every starting `Transform2D` and every finite sequence of
deltas, after the `Rotate` calls the rotation angle is the starting angle plus
the sum of the deltas, `GetMatrix` returns the same matrix as after one
`Rotate` by the sum, and position and scale are unchanged. In the driver, the
`Rotate` calls of a run are exactly the frame deltas `dt` of its iterations,
the transform after the loop is the start transform after those `Rotate`
calls, and its rotation is the sum of the frame deltas; so two runs whose
frame deltas have the same sum end with the same transform, whatever the
number of frames. -/
theorem C2_rotation_is_sum_of_deltas (t : Transform2D ℝ) (ds : List ℝ) (toFloat : ℝ → ℝ)
    (env : Driver.Env ℝ) (frames : List (Driver.Frame ℝ)) :
    (t.rotateAll ds).rotation = t.rotation + ds.sum ∧
    (t.rotateAll ds).GetMatrix Real.cos Real.sin
      = (t.Rotate ds.sum).GetMatrix Real.cos Real.sin ∧
    (t.rotateAll ds).position = t.position ∧
    (t.rotateAll ds).scale = t.scale ∧
    Driver.rotateArgs (Driver.main Real.cos Real.sin toFloat env frames).1.trace
      = Driver.frameDeltas toFloat env.tInit frames ∧
    (Driver.main Real.cos Real.sin toFloat env frames).1.transform
      = (Driver.startTransform : Transform2D ℝ).rotateAll
          (Driver.frameDeltas toFloat env.tInit frames) ∧
    (Driver.main Real.cos Real.sin toFloat env frames).1.transform.rotation
      = (Driver.frameDeltas toFloat env.tInit frames).sum ∧
    (Driver.main Real.cos Real.sin toFloat env frames).1.transform.GetMatrix Real.cos Real.sin
      = ((Driver.startTransform : Transform2D ℝ).Rotate
          (Driver.frameDeltas toFloat env.tInit frames).sum).GetMatrix Real.cos Real.sin ∧
    ∀ (env2 : Driver.Env ℝ) (frames2 : List (Driver.Frame ℝ)),
      (Driver.frameDeltas toFloat env2.tInit frames2).sum
        = (Driver.frameDeltas toFloat env.tInit frames).sum →
      (Driver.main Real.cos Real.sin toFloat env2 frames2).1.transform
        = (Driver.main Real.cos Real.sin toFloat env frames).1.transform := by
  have key : ∀ (e : Driver.Env ℝ) (fs : List (Driver.Frame ℝ)),
      (Driver.main Real.cos Real.sin toFloat e fs).1.transform
        = (Driver.startTransform : Transform2D ℝ).Rotate
            (Driver.frameDeltas toFloat e.tInit fs).sum := by
    intro e fs
    rw [Driver.main_transform, Transform2D.rotateAll_eq]
  refine ⟨Transform2D.rotateAll_rotation t ds, by rw [Transform2D.rotateAll_eq],
    Transform2D.rotateAll_position t ds, Transform2D.rotateAll_scale t ds,
    Driver.rotateArgs_main _ _ _ _ _, Driver.main_transform _ _ _ _ _, ?_, ?_, ?_⟩
  · rw [key env frames]
    simp [Transform2D.Rotate, Driver.startTransform, Transform2D.SetPosition,
      Transform2D.SetScale, Transform2D.init]
  · rw [key env frames]
  · intro env2 frames2 h
    rw [key env frames, key env2 frames2, h]

/-- C5 as stated fails: in the run where both shaders initialise, the
program handle is 1, linking fails and the uniform lookup yields the invalid
location -1 (a failed startup), with the window open for one iteration,
`main` still makes one `Rotate` and one `Draw` call, the latter with the
invalid location converted to `GLuint`; this is so whatever the narrowing of
the timer reading to `float` gives. -/
theorem C5_no_fail_fast_counterexample :
    Driver.startupFailed (⟨0, true, true, 1, false, -1⟩ : Driver.Env ℝ) = true ∧
    (∀ toFloat : ℝ → ℝ,
      ((Driver.main Real.cos Real.sin toFloat ⟨0, true, true, 1, false, -1⟩
        [⟨1, 1⟩]).1.trace.countP Driver.Call.isRotate) = 1) ∧
    (∀ toFloat : ℝ → ℝ,
      ((Driver.main Real.cos Real.sin toFloat ⟨0, true, true, 1, false, -1⟩
        [⟨1, 1⟩]).1.trace.countP Driver.Call.isDraw) = 1) ∧
    (∀ toFloat : ℝ → ℝ,
      Driver.Call.Draw
        (((Driver.startTransform : Transform2D ℝ).Rotate (toFloat (1 - 0))).GetMatrix
          Real.cos Real.sin)
        4294967295
      ∈ (Driver.main Real.cos Real.sin toFloat ⟨0, true, true, 1, false, -1⟩
          [⟨1, 1⟩]).1.trace) := by
  refine ⟨rfl, fun _ => rfl, fun _ => rfl, fun toFloat => ?_⟩
  simp [Driver.main, Driver.shutdown, Driver.mainLoop, Driver.frame, Driver.frameCalls,
    Driver.startup, Driver.toGLuint]

/-- C5, amended: `main` tests none of the startup results. Whatever the
outcomes of the two shader initialisations, of program creation, of linking
and of the uniform lookup, the trace of `main` begins with the same startup
calls and goes on into the main loop, where it makes exactly one `Rotate` and
one `Draw` call for each iteration that the window stays open; no `Rotate` and
no `Draw` is made only when the loop runs for no iteration. -/
theorem C5_startup_results_unchecked (toFloat : ℝ → ℝ) (env : Driver.Env ℝ)
    (frames : List (Driver.Frame ℝ)) :
    (Driver.main Real.cos Real.sin toFloat env frames).1.trace
      = Driver.startupCalls env
        ++ Driver.loopCalls Real.cos Real.sin toFloat (Driver.startup env) frames
        ++ [.glDeleteProgram env.program, .deleteSquare, .glfwTerminate] ∧
    (Driver.main Real.cos Real.sin toFloat env frames).1.trace.countP Driver.Call.isRotate
      = frames.length ∧
    (Driver.main Real.cos Real.sin toFloat env frames).1.trace.countP Driver.Call.isDraw
      = frames.length ∧
    (Driver.main Real.cos Real.sin toFloat env frames).2 = 0 := by
  have h := Driver.main_trace Real.cos Real.sin toFloat env frames
  refine ⟨h, ?_, ?_, rfl⟩
  · rw [h]
    simp [List.countP_append, Driver.countP_isRotate_loopCalls, Driver.startupCalls,
      List.countP_cons, Driver.Call.isRotate]
  · rw [h]
    simp [List.countP_append, Driver.countP_isDraw_loopCalls, Driver.startupCalls,
      List.countP_cons, Driver.Call.isDraw]

/-- C7 as stated fails: when `glCreateProgram` returns 0, and also when it
returns the handle 1 and linking fails, the one `Draw` call of a one-iteration
run is made while the current program is 0 (whatever the narrowing of the
timer reading to `float` gives). -/
theorem C7_draw_with_program_0_counterexample :
    (∀ toFloat : ℝ → ℝ,
      Driver.boundAtDraws ⟨0, []⟩
        (Driver.main Real.cos Real.sin toFloat ⟨0, true, true, 0, false, -1⟩
          [⟨1, 1⟩]).1.trace = [0]) ∧
    (∀ toFloat : ℝ → ℝ,
      Driver.boundAtDraws ⟨0, []⟩
        (Driver.main Real.cos Real.sin toFloat ⟨0, true, true, 1, false, -1⟩
          [⟨1, 1⟩]).1.trace = [0]) := by
  constructor <;> intro toFloat <;>
    simp [Driver.main, Driver.shutdown, Driver.mainLoop, Driver.frame, Driver.frameCalls,
      Driver.startup, Driver.startupCalls, Driver.boundAtDraws, Driver.GLState.step,
      Driver.Call.isDraw]

/-- C7, amended: when program creation and linking succeeded at startup
(`glCreateProgram` returned a nonzero handle and `glLinkProgram` succeeded),
every `Draw` call of the run is made while the current program is
`shaderProgram`, which is not 0: replaying the trace of `main`, the programs
current at the moments of the `Draw` calls are `shaderProgram`, once for each
iteration, and 0 is not among them. -/
theorem C7_draw_only_with_program_bound (toFloat : ℝ → ℝ) (env : Driver.Env ℝ)
    (frames : List (Driver.Frame ℝ)) (hprog : env.program ≠ 0) (hlink : env.linkOk = true) :
    Driver.boundAtDraws ⟨0, []⟩ (Driver.main Real.cos Real.sin toFloat env frames).1.trace
      = List.replicate frames.length env.program ∧
    (0 : Nat) ∉
      Driver.boundAtDraws ⟨0, []⟩ (Driver.main Real.cos Real.sin toFloat env frames).1.trace := by
  have htrace := Driver.main_trace Real.cos Real.sin toFloat env frames
  rw [List.append_assoc] at htrace
  have hstart : (Driver.startupCalls env).foldl Driver.GLState.step ⟨0, []⟩
      = ⟨0, [env.program]⟩ := by
    simp [Driver.startupCalls, Driver.GLState.step, hlink]
  have hstart2 : Driver.boundAtDraws ⟨0, []⟩ (Driver.startupCalls env) = [] := by
    simp [Driver.startupCalls, Driver.boundAtDraws, Driver.Call.isDraw]
  have hloop := Driver.boundAtDraws_loopCalls Real.cos Real.sin toFloat ⟨0, [env.program]⟩ rfl
    env.program (by simp) (Driver.startup env) rfl frames
  have hall : Driver.boundAtDraws ⟨0, []⟩
      (Driver.main Real.cos Real.sin toFloat env frames).1.trace
      = List.replicate frames.length env.program := by
    rw [htrace, Driver.boundAtDraws_append, hstart, hstart2, Driver.boundAtDraws_append,
      hloop.1, hloop.2]
    simp [Driver.boundAtDraws, Driver.Call.isDraw]
  refine ⟨hall, ?_⟩
  rw [hall]
  intro h
  exact hprog (List.eq_of_mem_replicate h).symm

/-- Witness of C7 at a successful startup with program handle 1 and a run of
two iterations. -/
theorem C7_draw_only_with_program_bound_witness :
    (⟨0, true, true, 1, true, 0⟩ : Driver.Env ℝ).program ≠ 0 ∧
    (⟨0, true, true, 1, true, 0⟩ : Driver.Env ℝ).linkOk = true ∧
    ∀ toFloat : ℝ → ℝ,
      Driver.boundAtDraws ⟨0, []⟩
        (Driver.main Real.cos Real.sin toFloat ⟨0, true, true, 1, true, 0⟩
          [⟨1, 1⟩, ⟨2, 2⟩]).1.trace
        = List.replicate [(⟨1, 1⟩ : Driver.Frame ℝ), ⟨2, 2⟩].length
            (⟨0, true, true, 1, true, 0⟩ : Driver.Env ℝ).program ∧
      (0 : Nat) ∉ Driver.boundAtDraws ⟨0, []⟩
        (Driver.main Real.cos Real.sin toFloat ⟨0, true, true, 1, true, 0⟩
          [⟨1, 1⟩, ⟨2, 2⟩]).1.trace :=
  ⟨by decide, rfl, fun toFloat =>
   C7_draw_only_with_program_bound toFloat ⟨0, true, true, 1, true, 0⟩ [⟨1, 1⟩, ⟨2, 2⟩]
     (by decide) rfl⟩

/-- C8 as stated fails in the first iteration: in the run whose timer is
started by `glfwInit` at wall-clock time 0 and whose only iteration reads the
timer at wall-clock time 5, the argument of `Rotate` is the `float` of the
reading `5 - 0`, the time since `glfwInit`; there is no previous iteration
whose reset it could be measured from, and `main` makes no `glfwSetTime` call
during startup. -/
theorem C8_first_iteration_counterexample :
    (∀ toFloat : ℝ → ℝ,
      Driver.rotateArgs
        (Driver.main Real.cos Real.sin toFloat ⟨0, true, true, 1, true, 0⟩ [⟨5, 5⟩]).1.trace
        = [toFloat (5 - 0)]) ∧
    (Driver.startupCalls (⟨0, true, true, 1, true, 0⟩ : Driver.Env ℝ)).any
      Driver.Call.isSetTime = false ∧
    Driver.previousReset [(⟨5, 5⟩ : Driver.Frame ℝ)] 0 = none ∧
    ¬ ∃ r : ℝ, Driver.previousReset [(⟨5, 5⟩ : Driver.Frame ℝ)] 0 = some r := by
  refine ⟨fun _ => rfl, rfl, rfl, ?_⟩
  rintro ⟨r, hr⟩
  simp [Driver.previousReset] at hr

/-- C8, amended: in every iteration `k` of the main loop, with `f` the times
of its timer calls, `main` makes exactly the ten calls listed, so `Rotate` is
called exactly once and before that iteration's `Draw`, and the matrix passed
to `Draw` is `GetMatrix` of the transform after that `Rotate`. The argument of
`Rotate` is the timer reading taken at the top of the iteration, narrowed from
`double` to `float` (`float dt = glfwGetTime();`). That reading is the time
elapsed since the previous iteration's timer reset in every iteration after
the first, and the time elapsed since `glfwInit` started the timer in the
first iteration. -/
theorem C8_rotate_once_before_draw (toFloat : ℝ → ℝ) (env : Driver.Env ℝ)
    (frames : List (Driver.Frame ℝ)) (k : Nat) (f : Driver.Frame ℝ)
    (hf : frames.get? k = some f) :
    (Driver.stateBefore Real.cos Real.sin toFloat env frames (k + 1)).trace
      = (Driver.stateBefore Real.cos Real.sin toFloat env frames k).trace
        ++ [ .glfwGetTime (f.tGet - (Driver.previousReset frames k).getD env.tInit),
             .glfwSetTime 0,
             .glClear,
             .glClearColor,
             .Rotate (toFloat (f.tGet - (Driver.previousReset frames k).getD env.tInit)),
             .glUseProgram env.program,
             .Draw (((Driver.stateBefore Real.cos Real.sin toFloat env frames k).transform.Rotate
                      (toFloat (f.tGet - (Driver.previousReset frames k).getD env.tInit))).GetMatrix
                      Real.cos Real.sin)
                   (Driver.toGLuint env.uniform),
             .glUseProgram 0,
             .glfwSwapBuffers,
             .glfwPollEvents ] ∧
    (∃ rest, (Driver.main Real.cos Real.sin toFloat env frames).1.trace
      = (Driver.stateBefore Real.cos Real.sin toFloat env frames (k + 1)).trace ++ rest) ∧
    (Driver.stateBefore Real.cos Real.sin toFloat env frames 0).trace
      = Driver.startupCalls env ∧
    (Driver.stateBefore Real.cos Real.sin toFloat env frames k).transform
      = (Driver.startTransform : Transform2D ℝ).rotateAll
          (Driver.frameDeltas toFloat env.tInit (frames.take k)) ∧
    (k = 0 → (Driver.previousReset frames k).getD env.tInit = env.tInit) ∧
    (∀ j p, k = j + 1 → frames.get? j = some p →
      (Driver.previousReset frames k).getD env.tInit = p.tSet) := by
  have hk : k < frames.length := by
    rcases List.get?_eq_some.mp hf with ⟨h, _⟩
    exact h
  have hfk : frames.get ⟨k, hk⟩ = f := by
    rcases List.get?_eq_some.mp hf with ⟨_, h⟩
    exact h
  have horigin :=
    Driver.stateBefore_timerOrigin Real.cos Real.sin toFloat env frames k (le_of_lt hk)
  have hprog : (Driver.stateBefore Real.cos Real.sin toFloat env frames k).shaderProgram
      = env.program := by
    simp [Driver.stateBefore, Driver.mainLoop_shaderProgram, Driver.startup]
  have hloc : (Driver.stateBefore Real.cos Real.sin toFloat env frames k).uniformLocation
      = Driver.toGLuint env.uniform := by
    simp [Driver.stateBefore, Driver.mainLoop_uniformLocation, Driver.startup]
  refine ⟨?_, ?_, rfl, ?_, ?_, ?_⟩
  · rw [Driver.stateBefore_succ Real.cos Real.sin toFloat env frames k hk, hfk]
    simp [Driver.frame, Driver.frameCalls, horigin, hprog, hloc]
  · refine ⟨Driver.loopCalls Real.cos Real.sin toFloat
        (Driver.stateBefore Real.cos Real.sin toFloat env frames (k + 1)) (frames.drop (k + 1))
        ++ [.glDeleteProgram env.program, .deleteSquare, .glfwTerminate], ?_⟩
    have hsplit : Driver.mainLoop Real.cos Real.sin toFloat (Driver.startup env) frames
        = Driver.mainLoop Real.cos Real.sin toFloat
            (Driver.stateBefore Real.cos Real.sin toFloat env frames (k + 1))
            (frames.drop (k + 1)) := by
      unfold Driver.stateBefore
      rw [← Driver.mainLoop_append, List.take_append_drop]
    have hmain : (Driver.main Real.cos Real.sin toFloat env frames).1.trace
        = (Driver.mainLoop Real.cos Real.sin toFloat (Driver.startup env) frames).trace
          ++ [.glDeleteProgram env.program, .deleteSquare, .glfwTerminate] := by
      simp [Driver.main, Driver.shutdown, Driver.mainLoop_shaderProgram, Driver.startup]
    rw [hmain, hsplit, Driver.mainLoop_trace, List.append_assoc]
  · unfold Driver.stateBefore
    rw [Driver.mainLoop_transform, Driver.rotateArgs_loopCalls]
    rfl
  · intro h0
    subst h0
    rfl
  · intro j p hj hp
    subst hj
    show ((frames.get? j).map Driver.Frame.tSet).getD env.tInit = p.tSet
    rw [hp]
    rfl

/-- Witness of C8 at the second iteration (`k = 1`) of a two-iteration run
with the timer started at wall-clock time 0, timer calls at times 1 and 2 in
the first iteration and 4 and 5 in the second: the second `Rotate` gets the
`float` of `4 - 2`. -/
theorem C8_rotate_once_before_draw_witness :
    [(⟨1, 2⟩ : Driver.Frame ℝ), ⟨4, 5⟩].get? 1 = some ⟨4, 5⟩ ∧
    ∀ toFloat : ℝ → ℝ,
    (Driver.previousReset [(⟨1, 2⟩ : Driver.Frame ℝ), ⟨4, 5⟩] 1).getD 0 = 2 ∧
    (Driver.stateBefore Real.cos Real.sin toFloat ⟨0, true, true, 1, true, 0⟩
        [⟨1, 2⟩, ⟨4, 5⟩] (1 + 1)).trace
      = (Driver.stateBefore Real.cos Real.sin toFloat ⟨0, true, true, 1, true, 0⟩
          [⟨1, 2⟩, ⟨4, 5⟩] 1).trace
        ++ [ .glfwGetTime (4 - (Driver.previousReset [(⟨1, 2⟩ : Driver.Frame ℝ), ⟨4, 5⟩] 1).getD 0),
             .glfwSetTime 0,
             .glClear,
             .glClearColor,
             .Rotate (toFloat
               (4 - (Driver.previousReset [(⟨1, 2⟩ : Driver.Frame ℝ), ⟨4, 5⟩] 1).getD 0)),
             .glUseProgram 1,
             .Draw (((Driver.stateBefore Real.cos Real.sin toFloat ⟨0, true, true, 1, true, 0⟩
                      [⟨1, 2⟩, ⟨4, 5⟩] 1).transform.Rotate
                      (toFloat
                        (4 - (Driver.previousReset [(⟨1, 2⟩ : Driver.Frame ℝ), ⟨4, 5⟩] 1).getD
                          0))).GetMatrix Real.cos Real.sin)
                   (Driver.toGLuint 0),
             .glUseProgram 0,
             .glfwSwapBuffers,
             .glfwPollEvents ] :=
  ⟨rfl, fun toFloat =>
   ⟨(C8_rotate_once_before_draw toFloat ⟨0, true, true, 1, true, 0⟩ [⟨1, 2⟩, ⟨4, 5⟩] 1 ⟨4, 5⟩
      rfl).2.2.2.2.2 0 ⟨1, 2⟩ rfl rfl,
    (C8_rotate_once_before_draw toFloat ⟨0, true, true, 1, true, 0⟩ [⟨1, 2⟩, ⟨4, 5⟩] 1 ⟨4, 5⟩
      rfl).1⟩⟩
